import Mathlib

set_option maxRecDepth 4000

namespace Scraper

/-! Shallow embedding of the resilient page-extraction core of
scrapeProductsFinal.py, together with the module-level review loop of
alternate/paginatedProject.py.  DOM access is modelled as pure outcome
functions supplied by a page value; machine effects (logging, sleeping)
are erased except where a claim speaks about them (the stale-retry
backoff counter). -/

/-- Selenium locator strategies used by the scraper (By.XPATH and
By.CSS_SELECTOR are the only two that occur). -/
inductive ByStrat where
  | xpath
  | cssSelector
deriving DecidableEq

/-- A locator: strategy tag plus pattern string, exactly as passed to the
resolver calls in the source. -/
structure Locator where
  strat : ByStrat
  value : String
deriving DecidableEq

/-- A resolved DOM element: its rendered text and its attributes
(get_attribute yields the attribute value or None). -/
structure Elem where
  text : String
  attr : String → Option String

/-- Outcome of one attempt of the wait-for-element primitive inside
safe_find_element (lines 83-102).  found: the element appears within
the timeout.  timeout: the locator never matches within the timeout —
WebDriverWait swallows the NoSuchElementException raised while polling
(it is in the wait's default ignored list) and raises TimeoutException,
which is not a NoSuchElementException and therefore falls into the
generic except at line 99, re-raised as ScraperError.  notFound: a
NoSuchElementException reaches the handler at line 88 and None is
returned; the source has this arm but the wait primitive cannot produce
the exception, so the arm is dead code — it is modelled so the embedding
covers the source's whole dispatch table.  stale: a stale reference is
detected and the full lookup is retried.  fault: any other unexpected
fault, re-raised as ScraperError. -/
inductive FindOutcome where
  | found (e : Elem)
  | notFound
  | stale
  | timeout
  | fault

/-- Result of a safe_find_element call as seen by its caller: an element,
the None sentinel, or a raised ScraperError. -/
inductive FindRes where
  | elem (e : Elem)
  | noElem
  | scraperError

/-- Embedding of safe_find_element over an attempt-indexed outcome
sequence: on a stale reference it sleeps one unit and retries the full
lookup recursively (line 97).  The fuel argument only bounds the depth of
the embedding; a none result models non-termination of the unbounded
recursion.  The second component of a returned pair is the index of the
attempt that resolved, which equals the number of stale retries performed
and hence the total backoff slept (one unit per retry). -/
def safe_find_element_retry (f : Nat → FindOutcome) : Nat → Nat → Option (FindRes × Nat)
  | _, 0 => none
  | attempt, fuel + 1 =>
    match f attempt with
    | .found e => some (.elem e, attempt)
    | .notFound => some (.noElem, attempt)
    | .stale => safe_find_element_retry f (attempt + 1) fuel
    | .timeout => some (.scraperError, attempt)
    | .fault => some (.scraperError, attempt)

/-- Dispatch of safe_find_element on a single non-stale outcome (the
stale case never applies where this is used): found yields the element;
the dead notFound arm yields None; a timeout and any other fault are
re-raised as ScraperError by the generic except. -/
def dispatchOutcome : FindOutcome → FindRes
  | .found e => .elem e
  | .notFound => .noElem
  | .stale => .scraperError
  | .timeout => .scraperError
  | .fault => .scraperError

/-- Effective outcome of a single-element lookup once any finite run of
stale retries has resolved; this is the interface the extractors
consume.  found: the element.  fault: the lookup raises ScraperError —
either an unexpected fault, or the TimeoutException produced when the
element never appears within the timeout, so in the real program a
missing element is a fault here, never a fallback.  notFound: the dead
NoSuchElementException arm that returns None, retained so the embedding
covers the source's whole dispatch table. -/
inductive EFind where
  | found (e : Elem)
  | notFound
  | fault

/-- Faults that can escape a field extraction step: a ScraperError raised
by the resolver, or an attribute dereference of the None sentinel. -/
inductive GErr where
  | resolverFault
  | noneDeref

/-- A safe_find_element call at the effective level: a found element is
returned; a fault — which in the real program includes the timeout of a
locator that never matches — raises ScraperError; the dead
NoSuchElementException arm would return the None sentinel. -/
def safe_find_element : EFind → Except GErr (Option Elem)
  | .found e => .ok (some e)
  | .notFound => .ok none
  | .fault => .error .resolverFault

/-- Outcome of a find_elements call. -/
inductive ManyOutcome where
  | found (es : List Elem)
  | fault

/-- Embedding of safe_find_elements (lines 105-125): any unexpected fault
is logged and degrades to the empty list. -/
def safe_find_elements : ManyOutcome → List Elem
  | .found es => es
  | .fault => []

/-! String utilities modelling the Python operations used by the
extractors.  All work on the character lists underlying strings. -/

/-- listPre n h decides whether n is a leading segment of h. -/
def listPre : List Char → List Char → Bool
  | [], _ => true
  | _ :: _, [] => false
  | a :: as, b :: bs => a == b && listPre as bs

/-- Membership of a needle as a contiguous segment of a character list,
modelling the Python substring test for the nonempty literals used here. -/
def strContainsList (needle : List Char) : List Char → Bool
  | [] => needle.isEmpty
  | c :: t => listPre needle (c :: t) || strContainsList needle t

/-- Python substring test needle in hay. -/
def strContains (hay needle : String) : Bool :=
  strContainsList needle.data hay.data

/-- Worker for the Python str.replace model, structurally recursive on a
fuel that starts at the list length (the zero-fuel case is unreachable):
every non-overlapping occurrence of a nonempty needle is replaced,
scanning left to right.  On a match the head is consumed by the pattern
and the remaining needle.length - 1 characters are dropped from the tail. -/
def pyReplaceFuel (needle repl : List Char) : Nat → List Char → List Char
  | _, [] => []
  | 0, l => l
  | fuel + 1, c :: t =>
    if listPre needle (c :: t) && !needle.isEmpty then
      repl ++ pyReplaceFuel needle repl fuel (List.drop (needle.length - 1) t)
    else c :: pyReplaceFuel needle repl fuel t

/-- Python str.replace for a nonempty needle. -/
def pyReplaceList (needle repl l : List Char) : List Char :=
  pyReplaceFuel needle repl l.length l

/-- Maximal leading digit run of a character list, with the remainder. -/
def takeDigits : List Char → List Char × List Char
  | [] => ([], [])
  | c :: t =>
    if c.isDigit then
      let p := takeDigits t
      (c :: p.1, p.2)
    else ([], c :: t)

/-- Value of a digit run, as Python int applied to a decimal-digit string. -/
def natOfDigits (ds : List Char) : Nat :=
  ds.foldl (fun a c => a * 10 + (c.toNat - 48)) 0

/-- Model of re.search for a bare integer pattern: the leftmost maximal
digit run, converted to an integer. -/
def firstInt : List Char → Option Nat
  | [] => none
  | c :: t => if c.isDigit then some (natOfDigits (takeDigits (c :: t)).1) else firstInt t

def outOfLit : List Char := " out of 5 stars".data

/-- One attempt of the overall-rating pattern at a fixed start position:
a maximal integer part, a preferred fractional part with backtracking to
drop it, then the literal tail, as the regex engine would match. -/
def ratingAt (l : List Char) : Option (List Char) :=
  match l with
  | [] => none
  | c :: _ =>
    if c.isDigit then
      let p := takeDigits l
      match p.2 with
      | '.' :: r2 =>
        let q := takeDigits r2
        if q.1 ≠ [] && listPre outOfLit q.2 then some (p.1 ++ '.' :: q.1)
        else if listPre outOfLit p.2 then some p.1
        else none
      | _ => if listPre outOfLit p.2 then some p.1 else none
    else none

/-- Leftmost search for the overall-rating pattern, as re.search does. -/
def ratingSearch : List Char → Option (List Char)
  | [] => none
  | c :: t =>
    match ratingAt (c :: t) with
    | some g => some g
    | none => ratingSearch t

def reviewsLit : List Char := " reviews".data

/-- One attempt of the total-reviews pattern at a fixed start position. -/
def reviewsAt (l : List Char) : Option Nat :=
  match l with
  | [] => none
  | c :: _ =>
    if c.isDigit then
      let p := takeDigits l
      if listPre reviewsLit p.2 then some (natOfDigits p.1) else none
    else none

/-- Leftmost search for the total-reviews pattern. -/
def reviewsSearch : List Char → Option Nat
  | [] => none
  | c :: t =>
    match reviewsAt (c :: t) with
    | some n => some n
    | none => reviewsSearch t

def byLit : List Char := "By ".data

def onLit : List Char := " on".data

/-- Lazy expansion of the reviewer-name group: grow the group one
non-newline character at a time until the on-tail literal follows. -/
def lazyName (acc : List Char) : List Char → Option (List Char)
  | [] => none
  | c :: t =>
    if c == '\n' then none
    else if listPre onLit t then some (acc ++ [c])
    else lazyName (acc ++ [c]) t

/-- Leftmost search for the reviewer-name pattern. -/
def nameSearch : List Char → Option (List Char)
  | [] => none
  | c :: t =>
    if listPre byLit (c :: t) then
      match lazyName [] (List.drop 3 (c :: t)) with
      | some g => some g
      | none => nameSearch t
    else nameSearch t

def onSpLit : List Char := "on ".data

/-- Greedy one-or-two digit date component followed by a slash (the slash
is consumed; the digits are returned). -/
def dayPart (l : List Char) : Option (List Char × List Char) :=
  match l with
  | a :: b :: r =>
    if a.isDigit && b.isDigit then
      match r with
      | '/' :: r2 => some ([a, b], r2)
      | _ => none
    else if a.isDigit && b == '/' then some ([a], r)
    else none
  | _ => none

/-- Exactly four digits of the year component. -/
def yearPart (l : List Char) : Option (List Char × List Char) :=
  match l with
  | a :: b :: c :: d :: r =>
    if a.isDigit && b.isDigit && c.isDigit && d.isDigit then some ([a, b, c, d], r)
    else none
  | _ => none

/-- One attempt of the review-date pattern at a fixed start position. -/
def dateAt (l : List Char) : Option (List Char) :=
  if listPre onSpLit l then
    match dayPart (List.drop 3 l) with
    | none => none
    | some p1 =>
      match dayPart p1.2 with
      | none => none
      | some p2 =>
        match yearPart p2.2 with
        | none => none
        | some p3 => some (p1.1 ++ '/' :: p2.1 ++ '/' :: p3.1)
  else none

/-- Leftmost search for the review-date pattern. -/
def dateSearch : List Char → Option (List Char)
  | [] => none
  | c :: t =>
    match dateAt (c :: t) with
    | some g => some g
    | none => dateSearch t

/-! Data model of the records the scraper builds.  Python dict values mix
strings, integers, lists of strings, lists of optional strings (image src
attributes can be None) and nested review dicts, so record values are a
small sum; a record is the dict itself as an insertion-ordered
association list. -/

/-- A value stored in a scraped record. -/
inductive Value where
  | str (s : String)
  | num (n : Nat)
  | strs (l : List String)
  | optStrs (l : List (Option String))
  | revs (l : List (List (String × Value)))

/-- A scraped record: field names to values, in insertion order. -/
abbrev Record := List (String × Value)

/-! Locators, with the literal pattern strings of the source. -/

def titleLoc : Locator :=
  ⟨.xpath, "//h1[contains(@class, \x27text-3xl\x27) and contains(@class, \x27font-bold\x27)]"⟩

def priceLoc : Locator :=
  ⟨.xpath, "//p[contains(@class, \x27text-3xl\x27) and contains(@class, \x27tracking-tight\x27) and contains(@class, \x27text-gray-900\x27)]"⟩

def categoriesLoc : Locator :=
  ⟨.xpath, "//a[contains(@class, \x27bg-primary-100\x27) and contains(@class, \x27text-primary-800\x27)]"⟩

def imagesLoc : Locator :=
  ⟨.xpath, "//img[@class=\x27h-full w-full object-cover object-center\x27]"⟩

def descriptionLoc : Locator :=
  ⟨.xpath, "//p[@class=\x27text-base text-gray-700\x27]"⟩

def ratingLoc : Locator :=
  ⟨.xpath, "//div[@class=\x27flex items-center\x27]/p[@class=\x27ml-3 text-sm text-gray-700\x27]"⟩

def stockStatusLoc : Locator :=
  ⟨.xpath, "//div[contains(@class, \x27inline-flex items-center\x27) and (contains(text(), \x27In stock\x27) or contains(text(), \x27Out of stock\x27))]"⟩

def stockQtyLoc : Locator :=
  ⟨.xpath, "//p[contains(@class, \x27ml-2\x27) and contains(@class, \x27text-sm\x27) and contains(@class, \x27text-gray-500\x27)]"⟩

def skuLoc : Locator :=
  ⟨.xpath, "//p[@class=\x27text-sm text-gray-500\x27]"⟩

def checksumLoc : Locator :=
  ⟨.xpath, "//code[contains(@class, \x27text-xs\x27) and contains(@class, \x27font-mono\x27)]"⟩

def reviewBlocksLoc : Locator :=
  ⟨.cssSelector, "div.border-b.border-gray-200.pb-8"⟩

def reviewerInfoLoc : Locator :=
  ⟨.xpath, ".//p[@class=\x27text-sm text-gray-500\x27]"⟩

def starsLoc : Locator :=
  ⟨.cssSelector, "svg.text-yellow-400"⟩

def reviewTitleLoc : Locator :=
  ⟨.xpath, ".//p[@class=\x27ml-3 text-sm font-medium text-gray-900\x27]"⟩

def reviewPLoc : Locator :=
  ⟨.xpath, ".//p"⟩

def reviewBodyLoc : Locator :=
  ⟨.xpath, ".//p[contains(@class, \x27text-base\x27) and contains(@class, \x27text-gray-900\x27)]"⟩

def reviewChecksumLoc : Locator :=
  ⟨.xpath, ".//code[contains(@class, \x27text-xs\x27) and contains(@class, \x27font-mono\x27)]"⟩

/-- Outcome of driver.get plus the initial five-second wait for the title
element (lines 308-309): the page loads with the title present, the wait
times out (TimeoutException), or some other fault is raised. -/
inductive NavOutcome where
  | loaded
  | timeoutExc
  | otherExc

/-- A review-block element together with the lookups scoped to it. -/
structure RBlock where
  findOne : Locator → EFind
  findMany : Locator → ManyOutcome

/-- Outcome of the review-blocks query. -/
inductive BlocksOutcome where
  | found (bs : List RBlock)
  | fault

/-- A product page at the effective level: the navigation outcome and the
outcomes of every lookup the extractors can make against it. -/
structure Page where
  nav : NavOutcome
  findOne : Locator → EFind
  findMany : Locator → ManyOutcome
  reviewBlocks : BlocksOutcome

/-! Field extractors. -/

/-- Embedding of extract_overall_rating (lines 128-163): for a missing
element both components fall back; otherwise the rating and total-reviews
patterns are searched in the element text.  The element text is pure here,
so the defensive except branch of the source is unreachable. -/
def extract_overall_rating (ratingElement : Option Elem) : String × Value :=
  match ratingElement with
  | none => ("N/A", Value.str "N/A")
  | some e =>
    let t := e.text.data
    let overall :=
      match ratingSearch t with
      | some g => String.mk g ++ "/5 Stars"
      | none => "N/A"
    let total :=
      match reviewsSearch t with
      | some n => Value.num n
      | none => Value.str "N/A"
    (overall, total)

/-- Embedding of extract_stock_availability (lines 166-215).  A raised
ScraperError from either inner lookup is caught by the function's own
try and degrades to the N/A fallback; in the real program a missing
element takes this fault path, so the source's None-test arms (lines
185-186 and 202-203, the notFound cases here) are dead code, translated
for completeness of the dispatch table. -/
def extract_stock_availability (p : Page) : Value :=
  match p.findOne stockStatusLoc with
  | .fault => Value.str "N/A"
  | .notFound => Value.str "N/A"
  | .found e =>
    if strContains e.text "Out of stock" then Value.num 0
    else if strContains e.text "In stock" then
      match p.findOne stockQtyLoc with
      | .fault => Value.str "N/A"
      | .notFound => Value.str "Unspecified Stock"
      | .found e2 =>
        match firstInt e2.text.data with
        | some n => Value.num n
        | none => Value.str "Unspecified Stock"
    else Value.str "N/A"

/-- The review_date_text computation (line 266): the text of the last
paragraph element when there are at least two of them, else the N/A
placeholder.  The getLast? none branch is unreachable under the length
guard and mirrors the same placeholder. -/
def review_date_text (ps : List Elem) : String :=
  if ps.length > 1 then
    match ps.getLast? with
    | some e => e.text
    | none => "N/A"
  else "N/A"

/-- Extraction of one review block (lines 245-278), in source order.  A
resolver fault in any of the four scoped single-element lookups raises
and is caught by the per-review handler, which skips the review. -/
def extract_review_block (b : RBlock) (rid : Nat) : Except GErr Record :=
  match safe_find_element (b.findOne reviewerInfoLoc) with
  | .error e => .error e
  | .ok infoEl =>
    let reviewerInfo := match infoEl with
      | some e => e.text
      | none => "Unknown"
    let name := match nameSearch reviewerInfo.data with
      | some g => String.mk g
      | none => "Anonymous"
    let stars := safe_find_elements (b.findMany starsLoc)
    let rating := toString stars.length ++ "/5 Stars"
    match safe_find_element (b.findOne reviewTitleLoc) with
    | .error e => .error e
    | .ok titleEl =>
      let title := match titleEl with
        | some e => e.text
        | none => "Untitled Review"
      let ps := safe_find_elements (b.findMany reviewPLoc)
      let date := match dateSearch (review_date_text ps).data with
        | some g => String.mk g
        | none => "Unknown Date"
      match safe_find_element (b.findOne reviewBodyLoc) with
      | .error e => .error e
      | .ok bodyEl =>
        let body := match bodyEl with
          | some e => e.text
          | none => "No review text"
        match safe_find_element (b.findOne reviewChecksumLoc) with
        | .error e => .error e
        | .ok ckEl =>
          let ck := match ckEl with
            | some e => e.text
            | none => "No Checksum"
          .ok [("Review ID", Value.num rid), ("Name", Value.str name),
               ("Rating", Value.str rating), ("Title", Value.str title),
               ("Date", Value.str date), ("Review Body", Value.str body),
               ("Review Checksum", Value.str ck)]

/-- The loop of extract_reviews: the ID counter advances for every block,
including skipped ones, and a faulting block contributes nothing. -/
def extract_reviews_go : List RBlock → Nat → List Record
  | [], _ => []
  | b :: t, rid =>
    match extract_review_block b rid with
    | .ok r => r :: extract_reviews_go t (rid + 1)
    | .error _ => extract_reviews_go t (rid + 1)

/-- Embedding of extract_reviews (lines 217-290): review blocks are
located with find_elements (empty on fault, which also covers the
no-reviews early return), then each block is extracted independently. -/
def extract_reviews (p : Page) : List Record :=
  match p.reviewBlocks with
  | .fault => []
  | .found bs => extract_reviews_go bs 1

/-- Embedding of the guarded field pattern
safe_find_element(x).text if safe_find_element(x) else fallback
(lines 327-331, 334-338, 358-362): the truthiness guard is evaluated
first; when it is truthy the dereferencing lookup runs and its text is
taken.  A None dereference, possible only when the two lookups disagree,
is the AttributeError fault. -/
def guarded_text (deref guard : EFind) (fallback : String) : Except GErr String :=
  match guard with
  | .fault => .error .resolverFault
  | .notFound => .ok fallback
  | .found _ =>
    match deref with
    | .fault => .error .resolverFault
    | .notFound => .error .noneDeref
    | .found e => .ok e.text

/-- The field-extraction body of scrape_product (lines 324-400), in
source order; a raised ScraperError or attribute fault aborts the row. -/
def build_row (p : Page) : Except GErr Record :=
  match guarded_text (p.findOne titleLoc) (p.findOne titleLoc) "Untitled Product" with
  | .error e => .error e
  | .ok title =>
   match guarded_text (p.findOne priceLoc) (p.findOne priceLoc) "Price Unavailable" with
   | .error e => .error e
   | .ok price =>
    let categories := (safe_find_elements (p.findMany categoriesLoc)).map (fun c => c.text)
    let images := (safe_find_elements (p.findMany imagesLoc)).map (fun i => i.attr "src")
    match guarded_text (p.findOne descriptionLoc) (p.findOne descriptionLoc) "No Description Available" with
    | .error e => .error e
    | .ok description =>
     match safe_find_element (p.findOne ratingLoc) with
     | .error e => .error e
     | .ok ratingEl =>
      let orr := extract_overall_rating ratingEl
      match safe_find_element (p.findOne stockStatusLoc) with
      | .error e => .error e
      | .ok stockEl =>
       let invStatus := match stockEl with
         | some e => e.text
         | none => "Stock Status Unavailable"
       let stockAvail := extract_stock_availability p
       match safe_find_element (p.findOne skuLoc) with
       | .error e => .error e
       | .ok skuEl =>
        let sku := match skuEl with
          | some e => String.mk (pyReplaceList "SKU: ".data [] e.text.data)
          | none => "SKU Unavailable"
        let checksums := safe_find_elements (p.findMany checksumLoc)
        let checksum := match checksums with
          | [] => "N/A"
          | c :: _ => c.text
        let reviews := extract_reviews p
        .ok [("Product Title", Value.str title), ("Price", Value.str price),
             ("Categories", Value.strs categories),
             ("Product Image URLs", Value.optStrs images),
             ("Description", Value.str description),
             ("Overall Rating", Value.str orr.1), ("Total Reviews", orr.2),
             ("Inventory Status", Value.str invStatus),
             ("Inventory Stock Available", stockAvail),
             ("SKU", Value.str sku), ("Product Checksum", Value.str checksum),
             ("Customer Reviews", Value.revs reviews)]

/-- Embedding of scrape_product (lines 293-412): navigate and wait for the
title (a timeout yields absence), check the title query is nonempty, then
build the record; any fault raised during field extraction propagates to
the per-product handler, which also yields absence. -/
def scrape_product (p : Page) : Option Record :=
  match p.nav with
  | .timeoutExc => none
  | .otherExc => none
  | .loaded =>
    let productTitles := safe_find_elements (p.findMany titleLoc)
    if productTitles.isEmpty then none
    else
      match build_row p with
      | .ok row => some row
      | .error _ => none

/-! Embedding of the module-level review loop of
alternate/paginatedProject.py (lines 85-132).  That script uses the raw
driver primitives: find_element raises on a missing element, and the
review dict is appended to the output after the try block whether or not
an exception interrupted its construction. -/

/-- A review-block element of the paginated script, with raw lookups:
find_element either yields an element or raises. -/
structure PagBlock where
  findOne : Locator → Except Unit Elem
  findMany : Locator → List Elem

/-- The driver handle, used by the loop for its page-global review-title
lookup (line 108). -/
structure PagDriver where
  findOne : Locator → Except Unit Elem

/-- The page-global review-title locator of the paginated script: an
absolute path, not one scoped to the review block. -/
def pagTitleLoc : Locator :=
  ⟨.xpath, "//p[@class=\x27ml-3 text-sm font-medium text-gray-900\x27]"⟩

/-- The guarded raw pattern
review.find_element(x).text if review.find_elements(x) else fallback
(lines 121 and 124): the count guard is evaluated first and the
dereferencing find_element may still raise. -/
def guarded_raw (many : List Elem) (one : Except Unit Elem) (fallback : String) :
    Except Unit String :=
  if many.length > 0 then one.map (fun e => e.text) else .ok fallback

/-- One iteration of the paginated review loop (lines 91-129): the dict
is built up key by key inside the try; on a raised exception the partial
dict built so far is what the loop appends. -/
def pag_review_data (drv : PagDriver) (b : PagBlock) (rid : Nat) : Record :=
  let d0 : Record := [("Review ID", Value.num rid)]
  match b.findOne reviewerInfoLoc with
  | .error _ => d0
  | .ok infoE =>
    let name := match nameSearch infoE.text.data with
      | some g => String.mk g
      | none => "N/A"
    let d1 := d0 ++ [("Reviewer Name", Value.str name)]
    let stars := b.findMany starsLoc
    let d2 := d1 ++ [("Rating", Value.str (toString stars.length ++ "/5 Stars"))]
    match drv.findOne pagTitleLoc with
    | .error _ => d2
    | .ok titleE =>
      let d3 := d2 ++ [("Review Title", Value.str titleE.text)]
      let ps := b.findMany reviewPLoc
      let dateStr :=
        if ps.length > 1 then
          match ps.getLast? with
          | some pe =>
            match dateSearch pe.text.data with
            | some g => String.mk g
            | none => "N/A"
          | none => "N/A"
        else "N/A"
      let d4 := d3 ++ [("Review Date", Value.str dateStr)]
      match guarded_raw (b.findMany reviewBodyLoc) (b.findOne reviewBodyLoc) "N/A" with
      | .error _ => d4
      | .ok body =>
        let d5 := d4 ++ [("Review Body", Value.str body)]
        match guarded_raw (b.findMany reviewChecksumLoc) (b.findOne reviewChecksumLoc) "N/A" with
        | .error _ => d5
        | .ok ck => d5 ++ [("Review Checksum", Value.str ck)]

/-- The paginated review loop: every review dict, partial or not, is
appended to the output sequence (line 129 sits outside the try). -/
def pag_reviews_go (drv : PagDriver) : List PagBlock → Nat → List Record
  | [], _ => []
  | b :: t, rid => pag_review_data drv b rid :: pag_reviews_go drv t (rid + 1)

/-- The review records the paginated script attaches to one product. -/
def pag_reviews (drv : PagDriver) (blocks : List PagBlock) : List Record :=
  pag_reviews_go drv blocks 1

/-! Derived predicates and key tables. -/

/-- The field names of a fully assembled product record, in insertion
order. -/
def prodKeys : List String :=
  ["Product Title", "Price", "Categories", "Product Image URLs", "Description",
   "Overall Rating", "Total Reviews", "Inventory Status",
   "Inventory Stock Available", "SKU", "Product Checksum", "Customer Reviews"]

/-- The field names of a fully assembled review record, in insertion
order. -/
def reviewKeys : List String :=
  ["Review ID", "Name", "Rating", "Title", "Date", "Review Body", "Review Checksum"]

/-- Whether an effective lookup outcome is the unexpected-fault case. -/
def isFault : EFind → Bool
  | .fault => true
  | _ => false

/-- Whether extracting a review block will raise: exactly when one of its
four scoped single-element lookups faults. -/
def block_faults (b : RBlock) : Bool :=
  isFault (b.findOne reviewerInfoLoc) || isFault (b.findOne reviewTitleLoc) ||
    isFault (b.findOne reviewBodyLoc) || isFault (b.findOne reviewChecksumLoc)

/-! Concrete fixtures used by witnesses and counterexamples. -/

/-- A concrete outcome sequence: stale twice, then not found. -/
def staleTwiceSeq : Nat → FindOutcome := fun k => if k < 2 then .stale else .notFound

/-- A concrete outcome sequence for a locator that never matches: every
attempt times out. -/
def alwaysTimeout : Nat → FindOutcome := fun _ => .timeout

/-- A page whose initial title wait times out. -/
def timeoutPage : Page :=
  { nav := .timeoutExc, findOne := fun _ => .notFound,
    findMany := fun _ => .found [], reviewBlocks := .found [] }

/-- A loaded page on which the title query matches nothing. -/
def noTitlePage : Page :=
  { nav := .loaded, findOne := fun _ => .notFound,
    findMany := fun _ => .found [], reviewBlocks := .found [] }

def elemInStock : Elem := ⟨"In stock", fun _ => none⟩

def elemTwelve : Elem := ⟨"12 available", fun _ => none⟩

/-- A loaded page showing the in-stock status with a secondary quantity
text of twelve. -/
def stockPage : Page :=
  { nav := .loaded
    findOne := fun l =>
      if l = stockQtyLoc then .found elemTwelve
      else if l = stockStatusLoc then .found elemInStock
      else .notFound
    findMany := fun _ => .found []
    reviewBlocks := .found [] }

def elemRating : Elem := ⟨"4.5 out of 5 stars, 128 reviews", fun _ => none⟩

def elemTitleW : Elem := ⟨"Widget", fun _ => none⟩

/-- A loaded page with a product title on which only the price lookup
faults. -/
def priceFaultPage : Page :=
  { nav := .loaded
    findOne := fun l => if l = priceLoc then .fault else .found elemTitleW
    findMany := fun _ => .found [elemTitleW]
    reviewBlocks := .found [] }

/-- A loaded page with a product title on which every optional element is
missing, so every guarded field takes its fallback. -/
def fallbackPage : Page :=
  { nav := .loaded
    findOne := fun _ => .notFound
    findMany := fun l => if l = titleLoc then .found [elemTitleW] else .found []
    reviewBlocks := .found [] }

/-- A loaded page on which every directly guarded element is present, the
stock status reads in-stock, and only the secondary quantity lookup
faults (in the program: its element is missing, so the wait times out and
ScraperError is raised inside the stock extractor). -/
def allFoundPage : Page :=
  { nav := .loaded
    findOne := fun l =>
      if l = stockQtyLoc then .fault
      else if l = stockStatusLoc then .found elemInStock
      else .found elemTitleW
    findMany := fun l => if l = titleLoc then .found [elemTitleW] else .found []
    reviewBlocks := .found [] }

/-- A loaded page whose stock status reads in-stock but whose secondary
quantity element is missing, so that lookup raises. -/
def qtyMissingPage : Page :=
  { nav := .loaded
    findOne := fun l => if l = stockStatusLoc then .found elemInStock else .fault
    findMany := fun _ => .found []
    reviewBlocks := .found [] }

/-- A review block whose scoped single-element lookups all fault. -/
def rblockFault : RBlock := ⟨fun _ => .fault, fun _ => .found []⟩

/-- A review block whose scoped lookups all come back missing, so every
review field takes its fallback. -/
def rblockOk : RBlock := ⟨fun _ => .notFound, fun _ => .found []⟩

/-- A loaded page whose first review block faults and whose second is
fine. -/
def reviewFaultPage : Page :=
  { nav := .loaded, findOne := fun _ => .notFound,
    findMany := fun _ => .found [], reviewBlocks := .found [rblockFault, rblockOk] }

/-- A paginated-script review block whose raw lookups all raise. -/
def pagBlockFault : PagBlock := ⟨fun _ => .error (), fun _ => []⟩

/-- A paginated-script review block whose raw lookups succeed. -/
def pagBlockOk : PagBlock :=
  ⟨fun _ => .ok ⟨"By Bob on 1/2/2024", fun _ => none⟩, fun _ => []⟩

/-- A paginated-script driver whose raw lookups all raise. -/
def pagDriverFault : PagDriver := ⟨fun _ => .error ()⟩

/-- A paginated-script driver whose raw lookups succeed. -/
def pagDriverOk : PagDriver := ⟨fun _ => .ok ⟨"Great product", fun _ => none⟩⟩

/-! Theorems. -/

/-- Helper: once the outcome sequence offers a non-stale outcome, the
retrying lookup resolves at the first such attempt, dispatching it. -/
lemma retry_shift (f : Nat → FindOutcome) :
    ∀ (n a fuel : Nat), (∀ k, k < n → f (a + k) = .stale) → f (a + n) ≠ .stale →
      n < fuel →
      safe_find_element_retry f a fuel = some (dispatchOutcome (f (a + n)), a + n) := by
  intro n
  induction n with
  | zero =>
    intro a fuel _ hnf hfuel
    match fuel, hfuel with
    | fuel + 1, _ =>
      simp only [Nat.add_zero] at hnf ⊢
      cases h : f a with
      | found e => simp [safe_find_element_retry, h, dispatchOutcome]
      | notFound => simp [safe_find_element_retry, h, dispatchOutcome]
      | stale => exact absurd h hnf
      | timeout => simp [safe_find_element_retry, h, dispatchOutcome]
      | fault => simp [safe_find_element_retry, h, dispatchOutcome]
  | succ n ih =>
    intro a fuel hstale hnf hfuel
    match fuel, hfuel with
    | fuel + 1, hfuel =>
      have h0 : f a = .stale := by simpa using hstale 0 (Nat.succ_pos n)
      have step : safe_find_element_retry f a (fuel + 1) =
          safe_find_element_retry f (a + 1) fuel := by
        simp [safe_find_element_retry, h0]
      have h1 : ∀ k, k < n → f (a + 1 + k) = .stale := by
        intro k hk
        have e : a + 1 + k = a + (k + 1) := by omega
        rw [e]
        exact hstale (k + 1) (by omega)
      have h2 : f (a + 1 + n) ≠ .stale := by
        have e : a + 1 + n = a + (n + 1) := by omega
        rw [e]
        exact hnf
      have h3 := ih (a + 1) fuel h1 h2 (by omega)
      rw [step, h3]
      have e : a + 1 + n = a + (n + 1) := by omega
      rw [e]

/-- C2: the claim (and the resolver's own docstring) say the call
returns the None sentinel when the locator does not match within the
timeout, but in the program that scenario raises: the wait primitive
produces TimeoutException, which the generic except re-raises as
ScraperError; the None-returning NoSuchElementException arm is never
reached.  The code is evaluated at the failing input — a locator that
never matches, i.e. every attempt times out — and yields the ScraperError
result, which is not the None sentinel. -/
theorem C2_timeout_raises :
    safe_find_element_retry alwaysTimeout 0 10 = some (.scraperError, 0) ∧
    FindRes.scraperError ≠ FindRes.noElem :=
  ⟨rfl, by simp⟩

/-- C8: on each stale-reference occurrence the resolver backs off one
time unit and retries the whole lookup, with no bound on the number of
retries: whenever some attempt is non-stale the lookup terminates at the
first such attempt, having retried (and slept) once per preceding stale
occurrence; on an all-stale sequence no amount of fuel yields a result,
so the recursion never terminates. -/
theorem C8_unbounded_stale_retry :
    (∀ (f : Nat → FindOutcome) (n : Nat), (∀ k, k < n → f k = .stale) → f n ≠ .stale →
      ∀ fuel, n < fuel →
        safe_find_element_retry f 0 fuel = some (dispatchOutcome (f n), n)) ∧
    (∀ f : Nat → FindOutcome, (∀ k, f k = .stale) →
      ∀ fuel, safe_find_element_retry f 0 fuel = none) := by
  constructor
  · intro f n hstale hnf fuel hfuel
    have h := retry_shift f n 0 fuel (by simpa using hstale) (by simpa using hnf) hfuel
    simpa using h
  · intro f hall fuel
    suffices h : ∀ fuel a, safe_find_element_retry f a fuel = none from h fuel 0
    intro fuel
    induction fuel with
    | zero => intro a; rfl
    | succ m ih => intro a; simp [safe_find_element_retry, hall a, ih]

theorem C8_witness :
    safe_find_element_retry staleTwiceSeq 0 3 = some (dispatchOutcome (staleTwiceSeq 2), 2) ∧
    safe_find_element_retry (fun _ => FindOutcome.stale) 0 5 = none :=
  ⟨C8_unbounded_stale_retry.1 staleTwiceSeq 2
      (by
        intro k hk
        rcases k with _ | _ | k
        · rfl
        · rfl
        · omega)
      (by simp [staleTwiceSeq]) 3 (by omega),
    C8_unbounded_stale_retry.2 (fun _ => .stale) (fun _ => rfl) 5⟩

/-- C5: when the product title cannot be located within the bounded wait
(the navigation wait times out), and likewise when the title query comes
back empty, scrape_product returns absence: no partial record is produced
for that product. -/
theorem C5_title_timeout_absence :
    (∀ p : Page, p.nav = .timeoutExc → scrape_product p = none) ∧
    (∀ p : Page, p.nav = .loaded → safe_find_elements (p.findMany titleLoc) = [] →
      scrape_product p = none) := by
  constructor
  · intro p h
    simp [scrape_product, h]
  · intro p h hempty
    simp [scrape_product, h, hempty]

theorem C5_witness :
    scrape_product timeoutPage = none ∧ scrape_product noTitlePage = none :=
  ⟨C5_title_timeout_absence.1 timeoutPage rfl,
    C5_title_timeout_absence.2 noTitlePage rfl rfl⟩

/-- C6 counterexample: on a page whose status reads in-stock but whose
secondary quantity element is missing, the program's secondary lookup
raises (the wait times out into ScraperError), the extractor's own except
catches it, and the result is N/A — not the Unspecified Stock sentinel
the claim promises for a missing secondary element. -/
theorem C6_counterexample :
    extract_stock_availability qtyMissingPage = Value.str "N/A" ∧
    extract_stock_availability qtyMissingPage ≠ Value.str "Unspecified Stock" := by
  have h0 : extract_stock_availability qtyMissingPage = Value.str "N/A" := rfl
  exact ⟨h0, by rw [h0]; simp⟩

/-- C6 amended: the stock-availability extractor returns 0 whenever the
status text contains the out-of-stock marker, and then its result does
not depend on the secondary lookup at all; the leading integer of the
secondary text when in stock and the secondary element is present with an
integer; the unspecified sentinel only when in stock and the secondary
element is present but holds no integer; and N/A when the status element
faults (which in the program includes its absence, since the wait raises
and the extractor's except catches), when the secondary lookup faults
(including a missing secondary element), or when the status text is
unrecognized. -/
theorem C6_stock_availability :
    (∀ p : Page, p.findOne stockStatusLoc = .fault →
      extract_stock_availability p = Value.str "N/A") ∧
    (∀ (p : Page) (e : Elem), p.findOne stockStatusLoc = .found e →
      strContains e.text "Out of stock" = true →
      (extract_stock_availability p = Value.num 0 ∧
        ∀ q : Page, q.findOne stockStatusLoc = p.findOne stockStatusLoc →
          extract_stock_availability q = Value.num 0)) ∧
    (∀ (p : Page) (e e2 : Elem) (n : Nat), p.findOne stockStatusLoc = .found e →
      strContains e.text "Out of stock" = false →
      strContains e.text "In stock" = true →
      p.findOne stockQtyLoc = .found e2 → firstInt e2.text.data = some n →
      extract_stock_availability p = Value.num n) ∧
    (∀ (p : Page) (e e2 : Elem), p.findOne stockStatusLoc = .found e →
      strContains e.text "Out of stock" = false →
      strContains e.text "In stock" = true →
      p.findOne stockQtyLoc = .found e2 → firstInt e2.text.data = none →
      extract_stock_availability p = Value.str "Unspecified Stock") ∧
    (∀ (p : Page) (e : Elem), p.findOne stockStatusLoc = .found e →
      strContains e.text "Out of stock" = false →
      strContains e.text "In stock" = true →
      p.findOne stockQtyLoc = .fault →
      extract_stock_availability p = Value.str "N/A") ∧
    (∀ (p : Page) (e : Elem), p.findOne stockStatusLoc = .found e →
      strContains e.text "Out of stock" = false →
      strContains e.text "In stock" = false →
      extract_stock_availability p = Value.str "N/A") := by
  refine ⟨?_, ?_, ?_, ?_, ?_, ?_⟩
  · intro p h
    simp [extract_stock_availability, h]
  · intro p e h hout
    have main : ∀ q : Page, q.findOne stockStatusLoc = .found e →
        extract_stock_availability q = Value.num 0 := by
      intro q hq
      simp [extract_stock_availability, hq, hout]
    exact ⟨main p h, fun q hq => main q (hq.trans h)⟩
  · intro p e e2 n h hout hin hq hn
    simp [extract_stock_availability, h, hout, hin, hq, hn]
  · intro p e e2 h hout hin hq hn
    simp [extract_stock_availability, h, hout, hin, hq, hn]
  · intro p e h hout hin hq
    simp [extract_stock_availability, h, hout, hin, hq]
  · intro p e h hout hin
    simp [extract_stock_availability, h, hout, hin]

theorem C6_witness : extract_stock_availability stockPage = Value.num 12 :=
  C6_stock_availability.2.2.1 stockPage elemInStock elemTwelve 12 rfl rfl rfl rfl rfl

/-- C7: the overall-rating extractor yields the formatted rating when the
rating pattern matches and N/A when it does not, the matched integer when
the reviews pattern matches and N/A when it does not, and the N/A pair for
an absent element. -/
theorem C7_overall_rating :
    extract_overall_rating none = ("N/A", Value.str "N/A") ∧
    (∀ (e : Elem) (g : List Char), ratingSearch e.text.data = some g →
      (extract_overall_rating (some e)).1 = String.mk g ++ "/5 Stars") ∧
    (∀ e : Elem, ratingSearch e.text.data = none →
      (extract_overall_rating (some e)).1 = "N/A") ∧
    (∀ (e : Elem) (n : Nat), reviewsSearch e.text.data = some n →
      (extract_overall_rating (some e)).2 = Value.num n) ∧
    (∀ e : Elem, reviewsSearch e.text.data = none →
      (extract_overall_rating (some e)).2 = Value.str "N/A") := by
  refine ⟨rfl, ?_, ?_, ?_, ?_⟩
  · intro e g h
    simp [extract_overall_rating, h]
  · intro e h
    simp [extract_overall_rating, h]
  · intro e n h
    simp [extract_overall_rating, h]
  · intro e h
    simp [extract_overall_rating, h]

theorem C7_witness :
    (extract_overall_rating (some elemRating)).1 = "4.5/5 Stars" ∧
    (extract_overall_rating (some elemRating)).2 = Value.num 128 :=
  ⟨(C7_overall_rating.2.1 elemRating "4.5".data rfl).trans rfl,
    C7_overall_rating.2.2.2.1 elemRating 128 rfl⟩

/-- C9: extraction is a deterministic function of the page contents:
any two runs of scrape_product against the same unchanged page yield
identical records. -/
theorem C9_deterministic_extraction (p : Page) (r₁ r₂ : Option Record)
    (h₁ : scrape_product p = r₁) (h₂ : scrape_product p = r₂) : r₁ = r₂ :=
  h₁.symm.trans h₂

theorem C9_witness : (none : Option Record) = none :=
  C9_deterministic_extraction stockPage none none rfl rfl

/-- C10: the guarded scalar-field pattern performs the truthiness-guard
lookup and the dereferencing lookup separately; whenever the two lookups
return the same result, the text dereference is never applied to the None
sentinel, and when that common result is not a fault the extraction is
total, producing either the element text or the documented fallback. -/
theorem C10_guard_consistent_total (deref guard : EFind) (fallback : String)
    (hsame : deref = guard) :
    guarded_text deref guard fallback ≠ .error .noneDeref ∧
    (guard ≠ .fault →
      ∃ s, guarded_text deref guard fallback = .ok s ∧
        ((∃ e, guard = .found e ∧ s = e.text) ∨ (guard = .notFound ∧ s = fallback))) := by
  subst hsame
  constructor
  · cases deref <;> simp [guarded_text]
  · intro hf
    cases deref with
    | found e => exact ⟨e.text, by simp [guarded_text], Or.inl ⟨e, rfl, rfl⟩⟩
    | notFound => exact ⟨fallback, by simp [guarded_text], Or.inr ⟨rfl, rfl⟩⟩
    | fault => exact absurd rfl hf

theorem C10_witness :
    ∃ s, guarded_text (EFind.found elemInStock) (EFind.found elemInStock)
        "Untitled Product" = .ok s ∧
      ((∃ e, EFind.found elemInStock = .found e ∧ s = e.text) ∨
        (EFind.found elemInStock = .notFound ∧ s = "Untitled Product")) :=
  (C10_guard_consistent_total (.found elemInStock) (.found elemInStock)
    "Untitled Product" rfl).2 (by simp)

/-- Helper: a consistent non-faulting guarded lookup always produces a
string. -/
lemma guarded_text_ok (r : EFind) (fb : String) (h : r ≠ .fault) :
    ∃ s, guarded_text r r fb = .ok s := by
  cases r with
  | found e => exact ⟨e.text, rfl⟩
  | notFound => exact ⟨fb, rfl⟩
  | fault => exact absurd rfl h

/-- Helper: a non-faulting lookup never raises. -/
lemma safe_find_element_ok (r : EFind) (h : r ≠ .fault) :
    ∃ o, safe_find_element r = .ok o := by
  cases r with
  | found e => exact ⟨some e, rfl⟩
  | notFound => exact ⟨none, rfl⟩
  | fault => exact absurd rfl h

/-- Helper: when none of the six directly guarded single-element lookups
faults, the field-extraction body completes with a row. -/
lemma build_row_ok (p : Page)
    (ht : p.findOne titleLoc ≠ .fault) (hp : p.findOne priceLoc ≠ .fault)
    (hd : p.findOne descriptionLoc ≠ .fault) (hr : p.findOne ratingLoc ≠ .fault)
    (hs : p.findOne stockStatusLoc ≠ .fault) (hk : p.findOne skuLoc ≠ .fault) :
    ∃ row, build_row p = .ok row := by
  obtain ⟨t, ht'⟩ := guarded_text_ok _ "Untitled Product" ht
  obtain ⟨pr, hp'⟩ := guarded_text_ok _ "Price Unavailable" hp
  obtain ⟨d, hd'⟩ := guarded_text_ok _ "No Description Available" hd
  obtain ⟨r, hr'⟩ := safe_find_element_ok _ hr
  obtain ⟨s, hs'⟩ := safe_find_element_ok _ hs
  obtain ⟨k, hk'⟩ := safe_find_element_ok _ hk
  simp only [build_row, ht', hp', hd', hr', hs', hk']
  exact ⟨_, rfl⟩

/-- Helper: every row the field-extraction body returns carries exactly
the product field names in order, and its customer-reviews entry holds
precisely the extracted reviews. -/
lemma build_row_shape (p : Page) (row : Record) (h : build_row p = .ok row) :
    row.map Prod.fst = prodKeys ∧
    ∀ rs, ("Customer Reviews", Value.revs rs) ∈ row → rs = extract_reviews p := by
  unfold build_row at h
  cases hT : guarded_text (p.findOne titleLoc) (p.findOne titleLoc)
      "Untitled Product" with
  | error e => simp [hT] at h
  | ok t =>
    simp only [hT] at h
    cases hP : guarded_text (p.findOne priceLoc) (p.findOne priceLoc)
        "Price Unavailable" with
    | error e => simp [hP] at h
    | ok pr =>
      simp only [hP] at h
      cases hD : guarded_text (p.findOne descriptionLoc) (p.findOne descriptionLoc)
          "No Description Available" with
      | error e => simp [hD] at h
      | ok d =>
        simp only [hD] at h
        cases hR : safe_find_element (p.findOne ratingLoc) with
        | error e => simp [hR] at h
        | ok rEl =>
          simp only [hR] at h
          cases hS : safe_find_element (p.findOne stockStatusLoc) with
          | error e => simp [hS] at h
          | ok sEl =>
            simp only [hS] at h
            cases hK : safe_find_element (p.findOne skuLoc) with
            | error e => simp [hK] at h
            | ok kEl =>
              simp only [hK] at h
              injection h with h
              subst h
              constructor
              · simp [prodKeys]
              · intro rs hmem
                simp only [List.mem_cons, List.not_mem_nil, or_false,
                  Prod.mk.injEq] at hmem
                simp at hmem
                first
                  | exact hmem.symm
                  | exact hmem

/-- Helper: a returned product record came from a completed
field-extraction body. -/
lemma scrape_product_some (p : Page) (row : Record)
    (h : scrape_product p = some row) : build_row p = .ok row := by
  unfold scrape_product at h
  cases hn : p.nav with
  | timeoutExc => simp [hn] at h
  | otherExc => simp [hn] at h
  | loaded =>
    simp only [hn] at h
    split at h
    · exact Option.noConfusion h
    · cases hw : build_row p with
      | ok r0 =>
        simp only [hw, Option.some.injEq] at h
        exact congrArg Except.ok h
      | error e => simp [hw] at h

/-- Helper: every review record the review loop emits comes from a block
whose extraction completed. -/
lemma extract_reviews_go_mem (bs : List RBlock) :
    ∀ (rid : Nat) (r : Record), r ∈ extract_reviews_go bs rid →
      ∃ b i, extract_review_block b i = .ok r := by
  induction bs with
  | nil =>
    intro rid r h
    simp [extract_reviews_go] at h
  | cons b t ih =>
    intro rid r h
    rw [extract_reviews_go] at h
    cases hb : extract_review_block b rid with
    | ok r0 =>
      rw [hb] at h
      simp only [List.mem_cons] at h
      rcases h with h | h
      · exact ⟨b, rid, by rw [hb, h]⟩
      · exact ih (rid + 1) r h
    | error e =>
      rw [hb] at h
      exact ih (rid + 1) r h

/-- Helper: every completed review record carries exactly the review
field names in order. -/
lemma extract_review_block_keys (b : RBlock) (rid : Nat) (r : Record)
    (h : extract_review_block b rid = .ok r) : r.map Prod.fst = reviewKeys := by
  unfold extract_review_block at h
  cases h1 : safe_find_element (b.findOne reviewerInfoLoc) with
  | error e => simp [h1] at h
  | ok infoEl =>
    simp only [h1] at h
    cases h2 : safe_find_element (b.findOne reviewTitleLoc) with
    | error e => simp [h2] at h
    | ok titleEl =>
      simp only [h2] at h
      cases h3 : safe_find_element (b.findOne reviewBodyLoc) with
      | error e => simp [h3] at h
      | ok bodyEl =>
        simp only [h3] at h
        cases h4 : safe_find_element (b.findOne reviewChecksumLoc) with
        | error e => simp [h4] at h
        | ok ckEl =>
          simp only [h4] at h
          injection h with h
          subst h
          simp [reviewKeys]

/-- Helper: a review block extraction completes exactly when none of its
scoped single-element lookups faults. -/
lemma extract_review_block_ok_iff (b : RBlock) (rid : Nat) :
    (∃ r, extract_review_block b rid = .ok r) ↔ block_faults b = false := by
  cases h1 : b.findOne reviewerInfoLoc <;>
    cases h2 : b.findOne reviewTitleLoc <;>
      cases h3 : b.findOne reviewBodyLoc <;>
        cases h4 : b.findOne reviewChecksumLoc <;>
          simp [extract_review_block, block_faults, isFault, safe_find_element,
            h1, h2, h3, h4]

/-- Helper: the review loop emits exactly one record per non-faulting
block, regardless of where the faulting blocks sit. -/
lemma extract_reviews_go_length (bs : List RBlock) :
    ∀ rid, (extract_reviews_go bs rid).length =
      (bs.filter fun b => !block_faults b).length := by
  induction bs with
  | nil => intro rid; rfl
  | cons b t ih =>
    intro rid
    rw [extract_reviews_go]
    cases hb : extract_review_block b rid with
    | ok r =>
      have hf : block_faults b = false :=
        (extract_review_block_ok_iff b rid).mp ⟨r, hb⟩
      simp [List.filter, hf, ih (rid + 1)]
    | error e =>
      have hf : block_faults b = true := by
        cases h : block_faults b with
        | false =>
          exfalso
          obtain ⟨r0, hr0⟩ := (extract_review_block_ok_iff b rid).mpr h
          rw [hb] at hr0
          exact Except.noConfusion hr0
        | true => rfl
      simp [List.filter, hf, ih (rid + 1)]

/-- C1 counterexample: in the paginated variant the review dict is
appended outside the try, so a review whose first scoped lookup raises is
returned carrying only its ID key: the reviewer-name field (and every
later field) is an absent key, not a fallback. -/
theorem C1_counterexample :
    pag_reviews pagDriverFault [pagBlockFault] = [[("Review ID", Value.num 1)]] ∧
    ¬ "Reviewer Name" ∈
      ((pag_reviews pagDriverFault [pagBlockFault]).headD []).map Prod.fst :=
  ⟨rfl, by decide⟩

/-- C1 amended: in the main scraper every returned product record carries
every product field, and every review record inside it carries every
review field, with extracted values or fallbacks; the paginated variant
violates this by appending partially built review dicts. -/
theorem C1_record_fields_always_present (p : Page) (row : Record)
    (h : scrape_product p = some row) :
    row.map Prod.fst = prodKeys ∧
    ∀ rs, ("Customer Reviews", Value.revs rs) ∈ row →
      ∀ r ∈ rs, r.map Prod.fst = reviewKeys := by
  have hb := scrape_product_some p row h
  have hshape := build_row_shape p row hb
  refine ⟨hshape.1, ?_⟩
  intro rs hmem r hr
  have hrs : rs = extract_reviews p := hshape.2 rs hmem
  subst hrs
  unfold extract_reviews at hr
  cases hbl : p.reviewBlocks with
  | fault =>
    rw [hbl] at hr
    simp at hr
  | found bs =>
    rw [hbl] at hr
    obtain ⟨b, i, hok⟩ := extract_reviews_go_mem bs 1 r hr
    exact extract_review_block_keys b i r hok

theorem C1_witness :
    ((scrape_product fallbackPage).getD []).map Prod.fst = prodKeys ∧
    ∀ rs, ("Customer Reviews", Value.revs rs) ∈ (scrape_product fallbackPage).getD [] →
      ∀ r ∈ rs, r.map Prod.fst = reviewKeys :=
  C1_record_fields_always_present fallbackPage ((scrape_product fallbackPage).getD [])
    (by rfl)

/-- C3 counterexample: on a page where only the price lookup signals an
unexpected fault, the sibling title field would extract fine, yet
scrape_product returns absence: the fault is caught only at the
per-product boundary and no record with a fallback price is returned. -/
theorem C3_counterexample :
    scrape_product priceFaultPage = none ∧
    guarded_text (priceFaultPage.findOne titleLoc) (priceFaultPage.findOne titleLoc)
      "Untitled Product" = .ok "Widget" :=
  ⟨rfl, rfl⟩

/-- C3 amended: a fault raised while extracting one field — which in the
program includes the timeout raised when a guarded optional element is
missing — is not replaced by that field's fallback: it propagates to the
per-product boundary, where scrape_product returns absence, so the
sibling fields are lost with it.  The only per-field containment among
scrape_product's fields is inside the stock-availability extractor's own
try (a faulting secondary quantity lookup yields N/A without aborting
the record).  When every directly guarded lookup finds its element, the
full record is returned with every field present. -/
theorem C3_fault_product_boundary :
    (∀ p : Page, p.nav = .loaded →
      safe_find_elements (p.findMany titleLoc) ≠ [] →
      (∃ e, p.findOne titleLoc = .found e) →
      (∃ e, p.findOne priceLoc = .found e) →
      (∃ e, p.findOne descriptionLoc = .found e) →
      (∃ e, p.findOne ratingLoc = .found e) →
      (∃ e, p.findOne stockStatusLoc = .found e) →
      (∃ e, p.findOne skuLoc = .found e) →
      ∃ row, scrape_product p = some row ∧ row.map Prod.fst = prodKeys) ∧
    (∀ p : Page, p.findOne priceLoc = .fault → scrape_product p = none) ∧
    (∀ (p : Page) (e : Elem), p.findOne stockStatusLoc = .found e →
      strContains e.text "Out of stock" = false →
      strContains e.text "In stock" = true →
      p.findOne stockQtyLoc = .fault →
      extract_stock_availability p = Value.str "N/A") := by
  refine ⟨?_, ?_, ?_⟩
  · intro p hnav htitles ht hp hd hr hs hk
    obtain ⟨e1, h1⟩ := ht
    obtain ⟨e2, h2⟩ := hp
    obtain ⟨e3, h3⟩ := hd
    obtain ⟨e4, h4⟩ := hr
    obtain ⟨e5, h5⟩ := hs
    obtain ⟨e6, h6⟩ := hk
    obtain ⟨row, hrow⟩ := build_row_ok p
      (by rw [h1]; simp) (by rw [h2]; simp) (by rw [h3]; simp)
      (by rw [h4]; simp) (by rw [h5]; simp) (by rw [h6]; simp)
    refine ⟨row, ?_, (build_row_shape p row hrow).1⟩
    unfold scrape_product
    rw [hnav]
    cases hls : safe_find_elements (p.findMany titleLoc) with
    | nil => exact absurd hls htitles
    | cons a l => simp [hls, hrow]
  · intro p hq
    have hber : build_row p = .error .resolverFault := by
      cases hT : p.findOne titleLoc with
      | found e => simp [build_row, guarded_text, hT, hq]
      | notFound => simp [build_row, guarded_text, hT, hq]
      | fault => simp [build_row, guarded_text, hT]
    unfold scrape_product
    cases hn : p.nav with
    | timeoutExc => rfl
    | otherExc => rfl
    | loaded => simp [hber]
  · intro p e h hout hin hq
    simp [extract_stock_availability, h, hout, hin, hq]

theorem C3_witness :
    (∃ row, scrape_product allFoundPage = some row ∧ row.map Prod.fst = prodKeys) ∧
    scrape_product priceFaultPage = none ∧
    extract_stock_availability allFoundPage = Value.str "N/A" :=
  ⟨C3_fault_product_boundary.1 allFoundPage rfl
      (by simp [allFoundPage, safe_find_elements])
      ⟨elemTitleW, rfl⟩ ⟨elemTitleW, rfl⟩ ⟨elemTitleW, rfl⟩ ⟨elemTitleW, rfl⟩
      ⟨elemInStock, rfl⟩ ⟨elemTitleW, rfl⟩,
    C3_fault_product_boundary.2.1 priceFaultPage rfl,
    C3_fault_product_boundary.2.2 allFoundPage elemInStock rfl rfl rfl rfl⟩

/-- C4 counterexample: in the paginated variant a review block whose
extraction raises is not omitted: its partially built dict is appended,
so two blocks yield two output records, the first holding only its ID
key. -/
theorem C4_counterexample :
    (pag_reviews pagDriverOk [pagBlockFault, pagBlockOk]).length = 2 ∧
    (pag_reviews pagDriverOk [pagBlockFault, pagBlockOk]).headD [] =
      [("Review ID", Value.num 1)] :=
  ⟨rfl, rfl⟩

/-- C4 amended: in the main scraper's extract_reviews a faulting review
block is omitted from the output (never fallback-filled or partially
filled: every emitted record comes from a completed block extraction) and
every sibling block is still processed, so the count of successfully
extracted sibling reviews is unchanged; the paginated variant instead
appends the faulting review partially filled. -/
theorem C4_faulting_review_omitted (p : Page) (bs₁ bs₂ : List RBlock) (b : RBlock)
    (hb : p.reviewBlocks = .found (bs₁ ++ b :: bs₂)) (hf : block_faults b = true) :
    (extract_reviews p).length =
      (bs₁.filter fun x => !block_faults x).length +
        (bs₂.filter fun x => !block_faults x).length ∧
    ∀ r ∈ extract_reviews p, ∃ b' i, extract_review_block b' i = .ok r := by
  constructor
  · unfold extract_reviews
    rw [hb, extract_reviews_go_length]
    simp [List.filter_append, List.filter, hf]
  · intro r hr
    unfold extract_reviews at hr
    rw [hb] at hr
    exact extract_reviews_go_mem _ _ _ hr

theorem C4_witness :
    (extract_reviews reviewFaultPage).length =
      (([] : List RBlock).filter fun x => !block_faults x).length +
        ([rblockOk].filter fun x => !block_faults x).length ∧
    ∀ r ∈ extract_reviews reviewFaultPage, ∃ b' i, extract_review_block b' i = .ok r :=
  C4_faulting_review_omitted reviewFaultPage [] [rblockOk] rblockFault rfl rfl

/-! Concrete evaluations of the string and pattern models on the
spec's worked examples. -/

example : ratingSearch "4.5 out of 5 stars, 128 reviews".data = some "4.5".data := by rfl

example : reviewsSearch "4.5 out of 5 stars, 128 reviews".data = some 128 := by rfl

example : firstInt "12 available".data = some 12 := by rfl

example : nameSearch "By Alice on 1/2/2024".data = some "Alice".data := by rfl

example : dateSearch "By Alice on 1/2/2024".data = some "1/2/2024".data := by rfl

example : String.mk (pyReplaceList "SKU: ".data [] "SKU: ABC-123".data) = "ABC-123" := by rfl

example : strContains "In stock" "In stock" = true := by rfl

example : strContains "In stock" "Out of stock" = false := by rfl

end Scraper


